import Mathlib

/-!
Verification development for the Nirava intake engine
(`src/agents/intake_agent.py`, `src/models/session.py`).

The Python code is shallowly embedded: strings are `List Char`/`String`,
Python `float` values are modeled as exact rationals (`ℚ`) — exact for the
dyadic/short-decimal values manipulated here — `None` is `Option.none`, and
the stateful agent/session objects are explicit records threaded through
pure functions.  Every definition is translated from the source; the one
spec-side definition (`specThreshold`) is clearly marked as such.
-/

attribute [local semireducible] Rat.add Rat.mul Rat.inv Rat.sub Rat.ofScientific

namespace Nirava

/-! ## Character and string utilities (Python `str` operations, ASCII range) -/

/-- ASCII lower-casing of one character, as Python `str.lower` acts on the
ASCII inputs used by this code base (non-ASCII characters are untouched). -/
def lowerChar (c : Char) : Char :=
  if c = 'A' then 'a' else if c = 'B' then 'b' else if c = 'C' then 'c'
  else if c = 'D' then 'd' else if c = 'E' then 'e' else if c = 'F' then 'f'
  else if c = 'G' then 'g' else if c = 'H' then 'h' else if c = 'I' then 'i'
  else if c = 'J' then 'j' else if c = 'K' then 'k' else if c = 'L' then 'l'
  else if c = 'M' then 'm' else if c = 'N' then 'n' else if c = 'O' then 'o'
  else if c = 'P' then 'p' else if c = 'Q' then 'q' else if c = 'R' then 'r'
  else if c = 'S' then 's' else if c = 'T' then 't' else if c = 'U' then 'u'
  else if c = 'V' then 'v' else if c = 'W' then 'w' else if c = 'X' then 'x'
  else if c = 'Y' then 'y' else if c = 'Z' then 'z' else c

/-- ASCII upper-casing of one character, as Python `str.upper` on ASCII. -/
def upperChar (c : Char) : Char :=
  if c = 'a' then 'A' else if c = 'b' then 'B' else if c = 'c' then 'C'
  else if c = 'd' then 'D' else if c = 'e' then 'E' else if c = 'f' then 'F'
  else if c = 'g' then 'G' else if c = 'h' then 'H' else if c = 'i' then 'I'
  else if c = 'j' then 'J' else if c = 'k' then 'K' else if c = 'l' then 'L'
  else if c = 'm' then 'M' else if c = 'n' then 'N' else if c = 'o' then 'O'
  else if c = 'p' then 'P' else if c = 'q' then 'Q' else if c = 'r' then 'R'
  else if c = 's' then 'S' else if c = 't' then 'T' else if c = 'u' then 'U'
  else if c = 'v' then 'V' else if c = 'w' then 'W' else if c = 'x' then 'X'
  else if c = 'y' then 'Y' else if c = 'z' then 'Z' else c

def lowerL (l : List Char) : List Char := l.map lowerChar

def upperL (l : List Char) : List Char := l.map upperChar

/-- Whitespace characters stripped by Python `str.strip` (ASCII range). -/
def pyIsSpace (c : Char) : Bool :=
  c == ' ' || c == '\t' || c == '\n' || c == '\x0d' || c == '\x0b' || c == '\x0c'

/-- Python `str.strip`: drop whitespace from both ends. -/
def stripL (l : List Char) : List Char :=
  ((l.dropWhile pyIsSpace).reverse.dropWhile pyIsSpace).reverse

def lowerS (s : String) : String := ⟨lowerL s.toList⟩

def upperS (s : String) : String := ⟨upperL s.toList⟩

def stripS (s : String) : String := ⟨stripL s.toList⟩

/-- Python substring test `needle in hay`. -/
def occursIn (needle : List Char) : List Char → Bool
  | [] => needle.isEmpty
  | c :: rest => needle.isPrefixOf (c :: rest) || occursIn needle rest

/-- Characters before the first occurrence of `sep` (the whole string when
`sep` does not occur): Python `s.split(sep)[0]` for nonempty `sep`. -/
def takeBefore (sep : List Char) : List Char → List Char
  | [] => []
  | c :: rest => if sep.isPrefixOf (c :: rest) then [] else c :: takeBefore sep rest

/-- Python `s.split(sep)` for a one-character separator. -/
def splitOnChar (sep : Char) : List Char → List (List Char)
  | [] => [[]]
  | c :: rest =>
    if c = sep then [] :: splitOnChar sep rest
    else
      match splitOnChar sep rest with
      | [] => [[c]]
      | p :: ps => (c :: p) :: ps

/-- Fuel-indexed worker for `splitOnSub`; with fuel ≥ length it computes
Python `s.split(sep)` for a nonempty separator. -/
def splitOnSubGo (sep : List Char) : Nat → List Char → List (List Char)
  | _, [] => [[]]
  | 0, l => [l]
  | fuel + 1, c :: rest =>
    if sep.isPrefixOf (c :: rest) then
      [] :: splitOnSubGo sep fuel ((c :: rest).drop sep.length)
    else
      match splitOnSubGo sep fuel rest with
      | [] => [[c]]
      | p :: ps => (c :: p) :: ps

/-- Python `s.split(sep)` for a nonempty multi-character separator. -/
def splitOnSub (sep l : List Char) : List (List Char) :=
  splitOnSubGo sep l.length l

/-! ## Numeric token extraction (the regex `\d+\.?\d*` and Python `float`) -/

/-- The (greedy) match of `\d+\.?\d*` starting at a digit position. -/
def numTokAt (l : List Char) : List Char :=
  let ds := l.takeWhile Char.isDigit
  match l.dropWhile Char.isDigit with
  | '.' :: rest => ds ++ '.' :: rest.takeWhile Char.isDigit
  | _ => ds

/-- The first match of `re.search(r"\d+\.?\d*", s)`, if any. -/
def firstNumTok : List Char → Option (List Char)
  | [] => none
  | c :: rest => if c.isDigit then some (numTokAt (c :: rest)) else firstNumTok rest

def digitVal (c : Char) : Nat := c.toNat - 48

def digitsToNat (l : List Char) : Nat := l.foldl (fun a c => 10 * a + digitVal c) 0

/-- Value of a token of shape `digits ['.' digits]` (Python `float()` on it,
modeled exactly in ℚ). -/
def tokVal (tok : List Char) : ℚ :=
  let ip := tok.takeWhile Char.isDigit
  match tok.dropWhile Char.isDigit with
  | '.' :: fr => (digitsToNat ip : ℚ) + (digitsToNat (fr.takeWhile Char.isDigit) : ℚ) / (10 : ℚ) ^ (fr.takeWhile Char.isDigit).length
  | _ => (digitsToNat ip : ℚ)

/-- Embedding of `IntakeAgent._extract_first_number`. -/
def extract_first_number (l : List Char) : Option ℚ :=
  (firstNumTok l).map tokVal

def removeDots (l : List Char) : List Char := l.filter (fun c => c != '.')

/-- The guard `p.strip().replace(".", "").isdigit()` of the range branch. -/
def isBareNum (p : List Char) : Bool :=
  let q := removeDots (stripL p)
  !q.isEmpty && q.all Char.isDigit

/-- Python `float(p.strip())` for `p` that passed `isBareNum` (its stripped
form consists of digits and dots, with at least one digit): succeeds exactly
when at most one dot is present, else raises (modeled as `none`). -/
def pyFloatOfBare (p : List Char) : Option ℚ :=
  let q := stripL p
  if q.count '.' ≤ 1 then some (tokVal q) else none

/-- The list comprehension
`[float(p.strip()) for p in parts if p.strip().replace(".", "").isdigit()]`:
`none` models a raised `ValueError` (some candidate had several dots). -/
def bareNums : List (List Char) → Option (List ℚ)
  | [] => some []
  | p :: ps =>
    if isBareNum p then
      match pyFloatOfBare p, bareNums ps with
      | some v, some vs => some (v :: vs)
      | _, _ => none
    else bareNums ps

def mean (l : List ℚ) : ℚ := l.sum / (l.length : ℚ)

def ratFloor (q : ℚ) : ℤ := Int.fdiv q.num (q.den : ℤ)

/-- Python `round(x)` (no `ndigits`): nearest integer, ties to the even
integer (banker's rounding).  `int()` of the result is the identity. -/
def pyRound (q : ℚ) : ℤ :=
  let n := ratFloor (q + 1 / 2)
  if (q + 1 / 2 = (n : ℚ)) ∧ n % 2 ≠ 0 then n - 1 else n

/-! ## The numeric parsers (`IntakeAgent._parse_int` / `._parse_float`) -/

def OUTOF : List Char := (" out of ").toList

def ORSEP : List Char := (" or ").toList

def startsWithDash : List Char → Bool
  | '-' :: _ => true
  | _ => false

/-- Embedding of `IntakeAgent._parse_float` (lines 749-783).  The raw value
has already been rendered through Python `str()`. -/
def parse_float (input : String) : Option ℚ :=
  let s0 := stripL (lowerL input.toList)
  let s1 := if occursIn OUTOF s0 then stripL (takeBefore OUTOF s0) else s0
  let orStep : Option ℚ :=
    if occursIn ORSEP s1 then
      match (splitOnSub ORSEP s1).filterMap extract_first_number with
      | [] => none
      | n :: ns => some (mean (n :: ns))
    else none
  match orStep with
  | some v => some v
  | none =>
    let s2 := if s1.contains '/' then stripL (takeBefore (['/']) s1) else s1
    let dashStep : Option ℚ :=
      if s2.contains '-' && !startsWithDash s2 then
        match bareNums (splitOnChar '-' s2) with
        | some (n :: ns) => some (mean (n :: ns))
        | _ => none
      else none
    match dashStep with
    | some v => some v
    | none => extract_first_number s2

/-- Embedding of `IntakeAgent._parse_int` (lines 701-742): the same grammar
with `int(round(·))` applied at each return point. -/
def parse_int (input : String) : Option ℤ :=
  let s0 := stripL (lowerL input.toList)
  let s1 := if occursIn OUTOF s0 then stripL (takeBefore OUTOF s0) else s0
  let orStep : Option ℤ :=
    if occursIn ORSEP s1 then
      match (splitOnSub ORSEP s1).filterMap extract_first_number with
      | [] => none
      | n :: ns => some (pyRound (mean (n :: ns)))
    else none
  match orStep with
  | some v => some v
  | none =>
    let s2 := if s1.contains '/' then stripL (takeBefore (['/']) s1) else s1
    let dashStep : Option ℤ :=
      if s2.contains '-' && !startsWithDash s2 then
        match bareNums (splitOnChar '-' s2) with
        | some (n :: ns) => some (pyRound (mean (n :: ns)))
        | _ => none
      else none
    match dashStep with
    | some v => some v
    | none => (extract_first_number s2).map pyRound

/-! ## Data model (`src/models/session.py`) -/

inductive ConversationPhase where
  | intake
  | post_analysis
deriving DecidableEq

inductive JourneyMode where
  | quick_check
  | deep_dive
  | build_plan
deriving DecidableEq

/-- Embedding of `UserProfile` (session.py lines 10-35).  Optional fields are
`none` until collected; `dietary_preference` uses the semantic default
`"omnivore"` as its uncollected marker. -/
structure UserProfile where
  name : String := "Friend"
  age : Option ℤ := none
  sex : Option String := none
  height_cm : Option ℚ := none
  weight_kg : Option ℚ := none
  primary_goal : String := "General Health"
  target_weight_kg : Option ℚ := none
  conditions : List String := []
  dietary_preference : String := "omnivore"
  food_restrictions : List String := []
  origin : Option String := none
  religion : Option String := none
deriving DecidableEq

/-- Embedding of `DailyCheckIn` (session.py lines 43-104). -/
structure DailyCheckIn where
  sleep_hours : Option ℚ := none
  water_glasses : Option ℤ := none
  exercise_minutes : Option ℤ := none
  exercise_type : Option String := none
  mood_score : Option ℤ := none
  stress_score : Option ℤ := none
  energy_score : Option ℤ := none
  social_hours : Option ℚ := none
  alcohol_units : Option ℤ := none
  smoking_today : Option Bool := none
  symptoms : List String := []
deriving DecidableEq

/-- Embedding of the `DailyCheckIn.is_complete` property. -/
def DailyCheckIn.is_complete (c : DailyCheckIn) : Bool :=
  c.sleep_hours.isSome && c.water_glasses.isSome && c.mood_score.isSome &&
  c.energy_score.isSome && c.stress_score.isSome && c.exercise_minutes.isSome

/-- Embedding of the `DailyCheckIn.missing_fields` property. -/
def DailyCheckIn.missing_fields (c : DailyCheckIn) : List String :=
  (if c.sleep_hours.isSome then [] else ["sleep duration"]) ++
  (if c.water_glasses.isSome then [] else ["water intake"]) ++
  (if c.mood_score.isSome then [] else ["mood (1-5)"]) ++
  (if c.energy_score.isSome then [] else ["energy level (1-5)"]) ++
  (if c.stress_score.isSome then [] else ["stress level (1-5)"]) ++
  (if c.exercise_minutes.isSome then [] else ["daily movement/exercise"])

/-- One history entry `{"role": ..., "content": ...}`. -/
structure Msg where
  role : String
  content : String
deriving DecidableEq

/-- Embedding of `ConversationState` (session.py lines 106-119). -/
structure ConversationState where
  history : List Msg := []
  profile : UserProfile := {}
  current_checkin : DailyCheckIn := {}
  phase : ConversationPhase := ConversationPhase.intake
  journey_mode : Option JourneyMode := none
deriving DecidableEq

/-! ## Static tables of `src/agents/intake_agent.py` -/

/-- Embedding of `ISSUE_METRICS` (intake_agent.py lines 38-109). -/
def ISSUE_METRICS : List (String × List String) :=
  [("emotional",
    ["stress_score", "mood_score", "sleep_hours", "social_hours",
     "exercise_minutes", "exercise_type", "energy_score", "water_glasses",
     "alcohol_units", "smoking_today"]),
   ("mental_fatigue",
    ["sleep_hours", "stress_score", "water_glasses", "mood_score",
     "energy_score", "exercise_minutes", "social_hours", "alcohol_units",
     "smoking_today"]),
   ("physical_fatigue",
    ["sleep_hours", "energy_score", "exercise_minutes", "exercise_type",
     "water_glasses", "stress_score", "mood_score", "social_hours",
     "alcohol_units", "smoking_today"]),
   ("sleep_issues",
    ["sleep_hours", "stress_score", "exercise_minutes", "exercise_type",
     "alcohol_units", "mood_score", "energy_score", "water_glasses",
     "social_hours", "smoking_today"]),
   ("general_wellness",
    ["sleep_hours", "water_glasses", "mood_score", "energy_score",
     "stress_score", "exercise_minutes", "exercise_type",
     "social_hours", "alcohol_units", "smoking_today"]),
   ("build_plan",
    ["age", "sex", "height_cm", "weight_kg",
     "sleep_hours", "water_glasses", "mood_score", "energy_score",
     "stress_score", "exercise_minutes", "exercise_type",
     "social_hours", "alcohol_units", "smoking_today",
     "dietary_preference", "origin", "religion"])]

/-- Python `ISSUE_METRICS.get(key, dflt)` / `ISSUE_METRICS[key]` (every key
actually looked up is present in the table). -/
def issueMetricsGet (key : String) (dflt : List String) : List String :=
  match ISSUE_METRICS.lookup key with
  | some l => l
  | none => dflt

/-- Embedding of `ISSUE_KEYWORDS` (intake_agent.py lines 112-117). -/
def ISSUE_KEYWORDS : List (String × List String) :=
  [("mental_fatigue",
    ["brain fog", "can\x27t focus", "mentally tired", "can\x27t think",
     "concentration", "distracted", "foggy", "mental"]),
   ("emotional",
    ["sad", "anxious", "depressed", "down", "worried", "stressed out",
     "overwhelmed", "upset", "lonely"]),
   ("physical_fatigue",
    ["lethargic", "sluggish", "no energy", "exhausted", "physically tired",
     "weak", "drained", "fatigued"]),
   ("sleep_issues",
    ["can\x27t sleep", "insomnia", "restless", "waking up", "sleep problems",
     "tired but can\x27t sleep"])]

/-- The `good_keywords` list of `_classify_issue`. -/
def GOOD_KEYWORDS : List String :=
  ["good", "great", "fine", "okay", "well", "amazing", "fantastic"]

/-! ## IssueClassifier (`IntakeAgent._classify_issue`, lines 192-226) -/

/-- The classifier input: `" ".join(m["content"].lower() for m in history if
m["role"] == "user")`. -/
def userText (history : List Msg) : List Char :=
  List.intercalate ((" ").toList)
    ((history.filter (fun m => m.role == "user")).map (fun m => lowerL m.content.toList))

/-- Keyword-hit count for one category:
`sum(1 for kw in keywords if kw in text)`. -/
def keywordMatches (text : List Char) (kws : List String) : Nat :=
  (kws.filter (fun kw => occursIn kw.toList text)).length

/-- The `issue_scores` mapping: categories with a positive hit count, in
table order (Python dict preserves insertion order). -/
def issueScores (text : List Char) : List (String × Nat) :=
  (ISSUE_KEYWORDS.map (fun pr => (pr.1, keywordMatches text pr.2))).filter
    (fun pr => 0 < pr.2)

/-- Embedding of `_classify_issue`: the issue category it assigns. -/
def classify_issue (history : List Msg) : String :=
  let text := userText history
  let scores := issueScores text
  if 2 ≤ scores.length then "general_wellness"
  else if scores.length = 1 then
    match scores with
    | p :: _ => p.1
    | [] => "general_wellness"
  else if GOOD_KEYWORDS.any (fun kw => occursIn kw.toList text) then "general_wellness"
  else "general_wellness"

/-- The classifier state held on the agent instance
(`self.issue_type`, `self.relevant_metrics`). -/
structure AgentState where
  issue_type : Option String := none
  relevant_metrics : Option (List String) := none
deriving DecidableEq

/-- The assignment `_classify_issue` performs on the agent instance:
`self.issue_type`/`self.relevant_metrics` from the classified category. -/
def classifyAgent (history : List Msg) : AgentState :=
  let t := classify_issue history
  { issue_type := some t, relevant_metrics := some (issueMetricsGet t []) }

/-! ## CompletionPolicy (`IntakeAgent._has_enough_data`, lines 228-262) -/

/-- One iteration of the `for metric in self.relevant_metrics` counting loop:
the source's `elif` chain, adding 1 when the metric's field is collected. -/
def metricTally (p : UserProfile) (c : DailyCheckIn) (acc : Nat) (m : String) : Nat :=
  if m = "age" ∧ p.age.isSome then acc + 1
  else if m = "sex" ∧ p.sex.isSome then acc + 1
  else if m = "height_cm" ∧ p.height_cm.isSome then acc + 1
  else if m = "weight_kg" ∧ p.weight_kg.isSome then acc + 1
  else if m = "origin" ∧ p.origin.isSome then acc + 1
  else if m = "religion" ∧ p.religion.isSome then acc + 1
  else if m = "sleep_hours" ∧ c.sleep_hours.isSome then acc + 1
  else if m = "water_glasses" ∧ c.water_glasses.isSome then acc + 1
  else if m = "mood_score" ∧ c.mood_score.isSome then acc + 1
  else if m = "energy_score" ∧ c.energy_score.isSome then acc + 1
  else if m = "stress_score" ∧ c.stress_score.isSome then acc + 1
  else if m = "exercise_minutes" ∧ c.exercise_minutes.isSome then acc + 1
  else if m = "exercise_type" ∧ c.exercise_type.isSome then acc + 1
  else if m = "social_hours" ∧ c.social_hours.isSome then acc + 1
  else if m = "alcohol_units" ∧ c.alcohol_units.isSome then acc + 1
  else if m = "smoking_today" ∧ c.smoking_today.isSome then acc + 1
  else if m = "dietary_preference" ∧ p.dietary_preference ≠ "omnivore" then acc + 1
  else acc

/-- The `collected` counter of `_has_enough_data`. -/
def collectedCount (p : UserProfile) (c : DailyCheckIn) (metrics : List String) : Nat :=
  metrics.foldl (metricTally p c) 0

/-- The completion threshold `max(8, int(len(relevant_metrics) * 0.75))`.
For every list length n the product `n * 0.75` is exact in binary floating
point and `int()` truncates toward zero, so the value is `⌊3n/4⌋`. -/
def threshold (metrics : List String) : Nat :=
  max 8 (3 * metrics.length / 4)

/-- The completion threshold as the SPEC words it (`max(8, ceil(0.75 ·
|L|))`) — a spec-side definition for comparison with `threshold`. -/
def specThreshold (metrics : List String) : Nat :=
  max 8 (((3 : ℚ) / 4 * metrics.length).ceil.toNat)

/-- Embedding of `_has_enough_data` (`if not self.relevant_metrics` is true
both for `None` and for an empty list). -/
def has_enough_data (agent : AgentState) (sess : ConversationState) : Bool :=
  match agent.relevant_metrics with
  | none => sess.current_checkin.is_complete
  | some metrics =>
    if metrics.isEmpty then sess.current_checkin.is_complete
    else threshold metrics ≤ collectedCount sess.profile sess.current_checkin metrics

/-! ## UpdateApplier (`IntakeAgent._apply_updates`, lines 577-699) -/

/-- A raw value of an extraction payload.  Numeric parsing always starts
with Python `str(value)`, so JSON numbers are modeled by their decimal
string rendering; booleans keep their identity because `smoking_today`
checks `isinstance(val, bool)` before string matching. -/
inductive PyVal where
  | str (s : String)
  | bool (b : Bool)
deriving DecidableEq

/-- Python `str(value)` for a payload value. -/
def PyVal.pyStr : PyVal → String
  | .str s => s
  | .bool true => "True"
  | .bool false => "False"

/-- The `extracted` map of an extraction result: absent keys (and keys that
are present with value `null`, which `updates.get(f) is not None` skips the
same way) are `none`. -/
structure Updates where
  sleep_hours : Option PyVal := none
  water_glasses : Option PyVal := none
  mood_score : Option PyVal := none
  energy_score : Option PyVal := none
  stress_score : Option PyVal := none
  exercise_minutes : Option PyVal := none
  exercise_type : Option PyVal := none
  social_hours : Option PyVal := none
  alcohol_units : Option PyVal := none
  smoking_today : Option PyVal := none
  age : Option PyVal := none
  sex : Option PyVal := none
  height_cm : Option PyVal := none
  weight_kg : Option PyVal := none
  origin : Option PyVal := none
  religion : Option PyVal := none
  dietary_preference : Option PyVal := none
deriving DecidableEq

/-- The `sleep_hours` block of `_apply_updates`: parse as float, accept in
[1,12]. Each block of the source reads only its own payload entry and writes
only its own field, so the blocks are embedded as independent per-field
update functions. -/
def applySleepHours (u : Updates) (old : Option ℚ) : Option ℚ :=
  match u.sleep_hours with
  | none => old
  | some v =>
    match parse_float (PyVal.pyStr v) with
    | some q => if 1 ≤ q ∧ q ≤ 12 then some q else old
    | none => old

/-- The `water_glasses` block: parse as int, accept in [0,20]. -/
def applyWaterGlasses (u : Updates) (old : Option ℤ) : Option ℤ :=
  match u.water_glasses with
  | none => old
  | some v =>
    match parse_int (PyVal.pyStr v) with
    | some q => if 0 ≤ q ∧ q ≤ 20 then some q else old
    | none => old

/-- The `mood_score` block: parse as int, accept in [1,5]. -/
def applyMoodScore (u : Updates) (old : Option ℤ) : Option ℤ :=
  match u.mood_score with
  | none => old
  | some v =>
    match parse_int (PyVal.pyStr v) with
    | some q => if 1 ≤ q ∧ q ≤ 5 then some q else old
    | none => old

/-- The `energy_score` block: parse as int, accept in [1,5]. -/
def applyEnergyScore (u : Updates) (old : Option ℤ) : Option ℤ :=
  match u.energy_score with
  | none => old
  | some v =>
    match parse_int (PyVal.pyStr v) with
    | some q => if 1 ≤ q ∧ q ≤ 5 then some q else old
    | none => old

/-- The `stress_score` block: parse as int, accept in [1,10]. -/
def applyStressScore (u : Updates) (old : Option ℤ) : Option ℤ :=
  match u.stress_score with
  | none => old
  | some v =>
    match parse_int (PyVal.pyStr v) with
    | some q => if 1 ≤ q ∧ q ≤ 10 then some q else old
    | none => old

/-- The `exercise_minutes` block: parse as int, accept in [0,300]. -/
def applyExerciseMinutes (u : Updates) (old : Option ℤ) : Option ℤ :=
  match u.exercise_minutes with
  | none => old
  | some v =>
    match parse_int (PyVal.pyStr v) with
    | some q => if 0 ≤ q ∧ q ≤ 300 then some q else old
    | none => old

/-- The `exercise_type` block: `str(...).lower().strip()`, accept the fixed
vocabulary. -/
def applyExerciseType (u : Updates) (old : Option String) : Option String :=
  match u.exercise_type with
  | none => old
  | some v =>
    let x := stripS (lowerS (PyVal.pyStr v))
    if x = "cardio" ∨ x = "strength" ∨ x = "both" ∨ x = "none" then some x else old

/-- The `social_hours` block: parse as float, accept in [0,24]. -/
def applySocialHours (u : Updates) (old : Option ℚ) : Option ℚ :=
  match u.social_hours with
  | none => old
  | some v =>
    match parse_float (PyVal.pyStr v) with
    | some q => if 0 ≤ q ∧ q ≤ 24 then some q else old
    | none => old

/-- The `alcohol_units` block: parse as int, accept in [0,20]. -/
def applyAlcoholUnits (u : Updates) (old : Option ℤ) : Option ℤ :=
  match u.alcohol_units with
  | none => old
  | some v =>
    match parse_int (PyVal.pyStr v) with
    | some q => if 0 ≤ q ∧ q ≤ 20 then some q else old
    | none => old

/-- The `smoking_today` block: native booleans pass through, otherwise
`str(val).lower()` (no strip) is matched against the fixed token sets. -/
def applySmokingToday (u : Updates) (old : Option Bool) : Option Bool :=
  match u.smoking_today with
  | none => old
  | some (.bool b) => some b
  | some (.str s) =>
    let x := lowerS s
    if x = "yes" ∨ x = "true" ∨ x = "1" then some true
    else if x = "no" ∨ x = "false" ∨ x = "0" then some false
    else old

/-- The `age` block: parse as int, accept in [10,120]. -/
def applyAge (u : Updates) (old : Option ℤ) : Option ℤ :=
  match u.age with
  | none => old
  | some v =>
    match parse_int (PyVal.pyStr v) with
    | some q => if 10 ≤ q ∧ q ≤ 120 then some q else old
    | none => old

/-- The `sex` block: `str(...).lower().strip()`, normalized via the synonym
sets. -/
def applySex (u : Updates) (old : Option String) : Option String :=
  match u.sex with
  | none => old
  | some v =>
    let x := stripS (lowerS (PyVal.pyStr v))
    if x = "male" ∨ x = "m" ∨ x = "man" then some ("male")
    else if x = "female" ∨ x = "f" ∨ x = "woman" then some ("female")
    else old

/-- The `height_cm` block: parse as float, accept in [100,250]. -/
def applyHeightCm (u : Updates) (old : Option ℚ) : Option ℚ :=
  match u.height_cm with
  | none => old
  | some v =>
    match parse_float (PyVal.pyStr v) with
    | some q => if 100 ≤ q ∧ q ≤ 250 then some q else old
    | none => old

/-- The `weight_kg` block: parse as float, accept in [30,300]. -/
def applyWeightKg (u : Updates) (old : Option ℚ) : Option ℚ :=
  match u.weight_kg with
  | none => old
  | some v =>
    match parse_float (PyVal.pyStr v) with
    | some q => if 30 ≤ q ∧ q ≤ 300 then some q else old
    | none => old

/-- The `origin` block: accepted verbatim after `str(...).strip()`. -/
def applyOrigin (u : Updates) (old : Option String) : Option String :=
  match u.origin with
  | none => old
  | some v => some (stripS (PyVal.pyStr v))

/-- The `religion` block: accepted verbatim after `str(...).strip()`. -/
def applyReligion (u : Updates) (old : Option String) : Option String :=
  match u.religion with
  | none => old
  | some v => some (stripS (PyVal.pyStr v))

/-- The `dietary_preference` block: `str(...).lower().strip()`, accept the
fixed vocabulary (the field is a plain string defaulted to "omnivore"). -/
def applyDietaryPreference (u : Updates) (old : String) : String :=
  match u.dietary_preference with
  | none => old
  | some v =>
    let x := stripS (lowerS (PyVal.pyStr v))
    if x = "vegetarian" ∨ x = "vegan" ∨ x = "pescatarian" ∨ x = "omnivore" then x else old

/-- Embedding of `_apply_updates` (lines 577-699): every block validates and
merges one field; rejected fields leave their target untouched and the
function is total (no fault can reach the caller). -/
def apply_updates (sess : ConversationState) (u : Updates) : ConversationState :=
  { sess with
    current_checkin :=
      { sess.current_checkin with
        sleep_hours := applySleepHours u sess.current_checkin.sleep_hours
        water_glasses := applyWaterGlasses u sess.current_checkin.water_glasses
        mood_score := applyMoodScore u sess.current_checkin.mood_score
        energy_score := applyEnergyScore u sess.current_checkin.energy_score
        stress_score := applyStressScore u sess.current_checkin.stress_score
        exercise_minutes := applyExerciseMinutes u sess.current_checkin.exercise_minutes
        exercise_type := applyExerciseType u sess.current_checkin.exercise_type
        social_hours := applySocialHours u sess.current_checkin.social_hours
        alcohol_units := applyAlcoholUnits u sess.current_checkin.alcohol_units
        smoking_today := applySmokingToday u sess.current_checkin.smoking_today }
    profile :=
      { sess.profile with
        age := applyAge u sess.profile.age
        sex := applySex u sess.profile.sex
        height_cm := applyHeightCm u sess.profile.height_cm
        weight_kg := applyWeightKg u sess.profile.weight_kg
        origin := applyOrigin u sess.profile.origin
        religion := applyReligion u sess.profile.religion
        dietary_preference := applyDietaryPreference u sess.profile.dietary_preference } }

/-! ## FallbackResponder (`IntakeAgent._fallback`, lines 785-820) and the
turn contract -/

/-- The dictionary returned by one turn.  The `issue_type` component models
dict-key presence: `none` means the key is absent from the returned dict,
`some x` means the key is present with value `x` (possibly Python `None`). -/
structure TurnResult where
  status : String
  reply : Option String
  extracted_updates : Updates
  issue_type : Option (Option String)
deriving DecidableEq

/-- The canned opening replies of `_fallback` for the first two user turns. -/
def EARLY_REPLIES : List String :=
  ["I hear you. To help you best, how many hours of sleep did you get last night?",
   "That sounds tough. Let\x27s check your basics. How is your energy level right now (1-5)?",
   "Got it. Quick check: How much water have you had today?"]

/-- The canned `questions` table of `_fallback` (keyed by metric name;
`missing_fields` produces friendly names, so lookups fall to the default). -/
def QUESTIONS : List (String × String) :=
  [("sleep_hours", "How\x27d you sleep last night?"),
   ("water_glasses", "Have you been drinking enough water today?"),
   ("mood_score", "How are you feeling overall?"),
   ("energy_score", "Energy levels holding up?"),
   ("stress_score", "Stress been manageable lately?"),
   ("exercise_minutes", "Get any movement in today?")]

/-- Python `questions.get(field, "How are things going?")`. -/
def questionsGet (f : String) : String :=
  (QUESTIONS.lookup f).getD ("How are things going?")

/-- The number of user-authored turns, `len([m for m in history if
m["role"] == "user"])`. -/
def userTurns (history : List Msg) : Nat :=
  (history.filter (fun m => m.role == "user")).length

/-- Embedding of `_fallback`.  `random.choice` is modeled by an explicit
choice function `choose` over the candidate list (spec §9 asks for a
pluggable choice); none of the fallback dicts carries an `issue_type` key. -/
def fallback (choose : List String → String) (sess : ConversationState) : TurnResult :=
  if userTurns sess.history ≤ 2 then
    { status := "CONTINUE", reply := some (choose EARLY_REPLIES),
      extracted_updates := {}, issue_type := none }
  else
    let missing := sess.current_checkin.missing_fields
    if missing.isEmpty then
      { status := "COMPLETE", reply := none, extracted_updates := {}, issue_type := none }
    else
      { status := "CONTINUE", reply := some (questionsGet (choose missing)),
        extracted_updates := {}, issue_type := none }

/-! ## DialogueOrchestrator (`IntakeAgent.run_conversation`, lines 127-190) -/

/-- A successfully parsed extraction-service response
`{issue_type?, extracted, status?, reply?}`. -/
structure LLMResult where
  issue_type : Option String := none
  extracted : Updates := {}
  status : Option String := none
  reply : Option String := none

/-- The outcome of the `model.generate_content` call plus JSON parsing:
`failure` covers any exception raised before the extracted updates are
applied (the service call raising is the case the spec discusses). -/
inductive LLMOutcome where
  | failure
  | success (r : LLMResult)

/-- The journey-mode selection block (lines 133-143): only runs when
`journey_mode` is unset and the history is nonempty, matching the last
message's content `.strip().upper()` against the keyword sets. -/
def journeyStep (sess : ConversationState) : ConversationState :=
  match sess.journey_mode, sess.history.getLast? with
  | none, some m =>
    let lastMsg := upperS (stripS m.content)
    if lastMsg = "A" ∨ lastMsg = "QUICK CHECK" ∨ lastMsg = "QUICK" then
      { sess with journey_mode := some JourneyMode.quick_check }
    else if lastMsg = "B" ∨ lastMsg = "DEEP DIVE" ∨ lastMsg = "DEEP" ∨
        lastMsg = "EDUCATE" ∨ lastMsg = "EDUCATION" then
      { sess with journey_mode := some JourneyMode.deep_dive }
    else if lastMsg = "C" ∨ lastMsg = "BUILD PLAN" ∨ lastMsg = "PLAN" ∨
        lastMsg = "BUILD" then
      { sess with journey_mode := some JourneyMode.build_plan }
    else sess
  | _, _ => sess

/-- Embedding of `run_conversation`: one turn of the orchestrator, given the
agent instance state, the session, whether a model is configured, and the
outcome of the extraction-service call.  Returns the new agent state, the
new session, and the turn result. -/
def run_conversation (choose : List String → String) (hasModel : Bool)
    (outcome : LLMOutcome) (agent : AgentState) (sess : ConversationState) :
    AgentState × ConversationState × TurnResult :=
  if !hasModel then (agent, sess, fallback choose sess)
  else
    let sess1 := journeyStep sess
    let agent1 :=
      if agent.issue_type = none ∧ 2 ≤ sess1.history.length then
        if sess1.journey_mode = some JourneyMode.build_plan then
          { issue_type := some ("build_plan"),
            relevant_metrics := some (issueMetricsGet ("build_plan") []) }
        else classifyAgent sess1.history
      else agent
    match outcome with
    | LLMOutcome.failure => (agent1, sess1, fallback choose sess1)
    | LLMOutcome.success r =>
      let agent2 :=
        match r.issue_type with
        | some t =>
          if t ≠ "" ∧ agent1.issue_type = none then
            { issue_type := some t,
              relevant_metrics :=
                some (issueMetricsGet t (issueMetricsGet ("general_wellness") [])) }
          else agent1
        | none => agent1
      let sess2 := apply_updates sess1 r.extracted
      let status := upperS (r.status.getD ("CONTINUE"))
      if has_enough_data agent2 sess2 ∨ status = "COMPLETE" then
        (agent2, sess2,
         { status := "COMPLETE", reply := none, extracted_updates := r.extracted,
           issue_type := some agent2.issue_type })
      else
        (agent2, sess2,
         { status := "CONTINUE", reply := some (r.reply.getD ("Tell me more.")),
           extracted_updates := r.extracted, issue_type := some agent2.issue_type })

/-! ## Theorems -/

/-- C1 (counterexample): the completion check computes
`max(8, int(0.75·|L|))`, a floor, not the ceiling the claim states.  On the
active 17-entry `build_plan` priority list the code threshold is 12 while
`max(8, ceil(0.75·17)) = 13`. -/
theorem C1_threshold_counterexample :
    threshold (issueMetricsGet ("build_plan") []) = 12 ∧
    specThreshold (issueMetricsGet ("build_plan") []) = 13 ∧
    threshold (issueMetricsGet ("build_plan") []) ≠
      specThreshold (issueMetricsGet ("build_plan") []) := by
  decide

/-- C2 (code evaluated at the failing input): for the range `"4-5"` the
midpoint is exactly 9/2, and `parse_int` returns 4 — Python `round()` is
half-to-even — not the 5 demanded by ties-away-from-zero (which the repo's
own `test_water_parsing` expects for the analogous midpoint). -/
theorem C2_parse_int_dash_tie :
    parse_float ("4-5") = some (9 / 2) ∧ parse_int ("4-5") = some 4 := by
  decide

/-- C3: the grammar applies " out of " and " or " before "/" and "-":
`parse_int("8 out of 10") = 8`, `parse_int("8/10") = 8`,
`parse_float("5-6") = 5.5`; on `"4 or 5 out of 10"` the " out of "
truncation happens first (the parse equals that of `"4 or 5"`), and on
`"3 or 4 out of 10 or 20"` truncation-first yields 7/2 (an " or "-first
reading would average 3, 4 and 20 to 9). -/
theorem C3_grammar_precedence :
    parse_int ("8 out of 10") = some 8 ∧
    parse_int ("8/10") = some 8 ∧
    parse_float ("5-6") = some (11 / 2) ∧
    parse_float ("4 or 5 out of 10") = parse_float ("4 or 5") ∧
    parse_float ("4 or 5 out of 10") = some (9 / 2) ∧
    parse_float ("3 or 4 out of 10 or 20") = some (7 / 2) := by
  decide

/-- C9 (counterexample): on the two user turns "I'm stressed" and "can't
focus at work" the keyword classifier does NOT yield the comprehensive
category ("stressed" alone is not a keyword — only "stressed out" is). -/
theorem C9_classifier_counterexample :
    classify_issue
      ([⟨"user", "I\x27m stressed"⟩, ⟨"user", "can\x27t focus at work"⟩]) ≠
      "general_wellness" := by
  decide

/-- C9 (amended): on those turns exactly one category has keyword hits
(only "can't focus" matches), so the classifier yields `mental_fatigue`. -/
theorem C9_single_category_mental_fatigue :
    classify_issue
      ([⟨"user", "I\x27m stressed"⟩, ⟨"user", "can\x27t focus at work"⟩]) =
      "mental_fatigue" ∧
    (issueScores (userText
      ([⟨"user", "I\x27m stressed"⟩, ⟨"user", "can\x27t focus at work"⟩]))).map
        Prod.fst = ["mental_fatigue"] := by
  decide

/-- C8 (counterexample): when the extraction call fails on the third user
turn with mandatory fields still missing, the fallback dict carries only
`status`/`reply`/`extracted_updates` — the `issue_type` key demanded by the
claim's TurnResult shape is absent (`issue_type = none` in the key-presence
encoding). -/
theorem C8_missing_issue_type_key :
    (run_conversation (fun l => l.headD "") true LLMOutcome.failure {}
      { history := [⟨"user", "hello"⟩, ⟨"model", "hi"⟩, ⟨"user", "ok"⟩,
                    ⟨"model", "q"⟩, ⟨"user", "fine"⟩] }).2.2 =
      { status := "CONTINUE", reply := some ("How are things going?"),
        extracted_updates := {}, issue_type := none } := by
  decide

/-- C10 (counterexample): a payload can re-collect `dietary_preference` to
its semantic default "omnivore", and the collected count used by the
completion check then decreases (here from 1 to 0 on the `build_plan`
list). -/
theorem C10_collected_count_can_decrease :
    collectedCount
      ((apply_updates { profile := { dietary_preference := "vegetarian" } }
        { dietary_preference := some (PyVal.str ("omnivore")) }).profile)
      ((apply_updates { profile := { dietary_preference := "vegetarian" } }
        { dietary_preference := some (PyVal.str ("omnivore")) }).current_checkin)
      (issueMetricsGet ("build_plan") []) <
    collectedCount ({ dietary_preference := "vegetarian" } : UserProfile) ({})
      (issueMetricsGet ("build_plan") []) := by
  decide

/-- C5: the keyword classifier resolves every conversation the same way —
the single hit category when exactly one category has keyword hits, and the
comprehensive `general_wellness` category otherwise (for ≥2 hit categories
as well as for 0, whether or not a "feeling fine" keyword is present). -/
theorem C5_classifier_resolution (h : List Msg) :
    classify_issue h =
      match issueScores (userText h) with
      | [p] => p.1
      | _ => "general_wellness" := by
  unfold classify_issue
  rcases hs : issueScores (userText h) with _ | ⟨p, _ | ⟨q, rest⟩⟩ <;>
    simp [hs]

/-- C6: once an issue type has been assigned on the agent instance, one more
turn of `run_conversation` — whatever the service outcome — leaves both
`issue_type` and `relevant_metrics` untouched: keyword classification is not
re-run and an extraction-service `issue_type` proposal is not accepted. -/
theorem C6_issue_type_sticky (choose : List String → String) (hm : Bool)
    (outcome : LLMOutcome) (agent : AgentState) (sess : ConversationState)
    (t : String) (hA : agent.issue_type = some t) :
    (run_conversation choose hm outcome agent sess).1.issue_type = some t ∧
    (run_conversation choose hm outcome agent sess).1.relevant_metrics =
      agent.relevant_metrics := by
  unfold run_conversation
  cases hm
  · simp [hA]
  · cases outcome with
    | failure => simp [hA]
    | success r =>
      simp [hA]
      split <;> cases r.issue_type <;> simp [hA]

/-- Witness for C6 at a concrete classified agent state. -/
theorem C6_issue_type_sticky_witness :
    (run_conversation (fun _ => "") true (LLMOutcome.success {})
      ({ issue_type := some ("emotional"),
         relevant_metrics := some (issueMetricsGet ("emotional") []) }) ({})).1.issue_type =
      some ("emotional") ∧
    (run_conversation (fun _ => "") true (LLMOutcome.success {})
      ({ issue_type := some ("emotional"),
         relevant_metrics := some (issueMetricsGet ("emotional") []) }) ({})).1.relevant_metrics =
      ({ issue_type := some ("emotional"),
         relevant_metrics := some (issueMetricsGet ("emotional") []) } : AgentState).relevant_metrics :=
  C6_issue_type_sticky (fun _ => "") true (LLMOutcome.success {}) _ ({}) ("emotional") rfl

/-- Helper: the journey-mode selection block touches only `journey_mode`. -/
theorem journeyStep_fields (s : ConversationState) :
    (journeyStep s).profile = s.profile ∧
    (journeyStep s).current_checkin = s.current_checkin ∧
    (journeyStep s).history = s.history := by
  unfold journeyStep
  rcases hj : s.journey_mode with _ | jm <;>
    rcases hl : s.history.getLast? with _ | m <;>
      simp [hj, hl]
  split_ifs <;> simp

/-- Helper: a successful assoc-list lookup returns one of the stored
values. -/
theorem lookup_mem_values {l : List (String × String)} {f q : String}
    (h : List.lookup f l = some q) : q ∈ l.map Prod.snd := by
  induction l with
  | nil => simp [List.lookup] at h
  | cons kb rest ih =>
    obtain ⟨k, b⟩ := kb
    rw [List.lookup] at h
    cases hk : (f == k) <;> rw [hk] at h
    · exact List.mem_cons_of_mem _ (ih (by simpa using h))
    · simp at h
      simp [h]

/-- Helper: every canned fallback question (including the default) is a
nonempty string. -/
theorem questionsGet_ne_empty (f : String) : questionsGet f ≠ "" := by
  unfold questionsGet
  rcases hl : List.lookup f QUESTIONS with _ | q
  · decide
  · have hq := lookup_mem_values hl
    simp [QUESTIONS] at hq
    rcases hq with h | h | h | h | h | h <;> subst h <;> decide

/-- C8 (amended): when the extraction-service call raises after the first
two user turns with a mandatory field still missing, the turn still returns
a well-formed result dict carrying `status`/`reply`/`extracted_updates`
(but no `issue_type` key) with status CONTINUE, a non-empty canned reply and
an empty update map, and neither the profile nor the check-in is mutated;
the exception is never propagated (the embedding is a total function). -/
theorem C8_fallback_turn_contract (choose : List String → String)
    (agent : AgentState) (sess : ConversationState)
    (h3 : 3 ≤ userTurns sess.history)
    (hmiss : sess.current_checkin.missing_fields ≠ []) :
    (run_conversation choose true LLMOutcome.failure agent sess).2.2.status = "CONTINUE" ∧
    (∃ rp, (run_conversation choose true LLMOutcome.failure agent sess).2.2.reply = some rp ∧
      rp ≠ "") ∧
    (run_conversation choose true LLMOutcome.failure agent sess).2.2.extracted_updates = {} ∧
    (run_conversation choose true LLMOutcome.failure agent sess).2.2.issue_type = none ∧
    (run_conversation choose true LLMOutcome.failure agent sess).2.1.profile = sess.profile ∧
    (run_conversation choose true LLMOutcome.failure agent sess).2.1.current_checkin =
      sess.current_checkin := by
  obtain ⟨hp, hc, hh⟩ := journeyStep_fields sess
  unfold run_conversation fallback
  simp only [Bool.not_true, Bool.false_eq_true, if_false]
  rw [hh, hc, hp]
  have hturn : ¬ (userTurns sess.history ≤ 2) := by omega
  rw [if_neg hturn]
  have hne : ¬ (sess.current_checkin.missing_fields.isEmpty = true) := by
    simpa [List.isEmpty_iff] using hmiss
  rw [if_neg hne]
  refine ⟨rfl, ⟨_, rfl, questionsGet_ne_empty _⟩, rfl, rfl, rfl, rfl⟩

/-- Witness for C8 (amended) on a three-user-turn session with all
mandatory fields missing. -/
theorem C8_fallback_turn_contract_witness :
    (run_conversation (fun l => l.headD "") true LLMOutcome.failure ({})
      ({ history := [⟨"user", "hello"⟩, ⟨"model", "hi"⟩, ⟨"user", "ok"⟩,
                     ⟨"model", "q"⟩, ⟨"user", "fine"⟩] })).2.2.status = "CONTINUE" ∧
    (∃ rp, (run_conversation (fun l => l.headD "") true LLMOutcome.failure ({})
      ({ history := [⟨"user", "hello"⟩, ⟨"model", "hi"⟩, ⟨"user", "ok"⟩,
                     ⟨"model", "q"⟩, ⟨"user", "fine"⟩] })).2.2.reply = some rp ∧
      rp ≠ "") ∧
    (run_conversation (fun l => l.headD "") true LLMOutcome.failure ({})
      ({ history := [⟨"user", "hello"⟩, ⟨"model", "hi"⟩, ⟨"user", "ok"⟩,
                     ⟨"model", "q"⟩, ⟨"user", "fine"⟩] })).2.2.extracted_updates = {} ∧
    (run_conversation (fun l => l.headD "") true LLMOutcome.failure ({})
      ({ history := [⟨"user", "hello"⟩, ⟨"model", "hi"⟩, ⟨"user", "ok"⟩,
                     ⟨"model", "q"⟩, ⟨"user", "fine"⟩] })).2.2.issue_type = none ∧
    (run_conversation (fun l => l.headD "") true LLMOutcome.failure ({})
      ({ history := [⟨"user", "hello"⟩, ⟨"model", "hi"⟩, ⟨"user", "ok"⟩,
                     ⟨"model", "q"⟩, ⟨"user", "fine"⟩] })).2.1.profile =
      ({ history := [⟨"user", "hello"⟩, ⟨"model", "hi"⟩, ⟨"user", "ok"⟩,
                     ⟨"model", "q"⟩, ⟨"user", "fine"⟩] } : ConversationState).profile ∧
    (run_conversation (fun l => l.headD "") true LLMOutcome.failure ({})
      ({ history := [⟨"user", "hello"⟩, ⟨"model", "hi"⟩, ⟨"user", "ok"⟩,
                     ⟨"model", "q"⟩, ⟨"user", "fine"⟩] })).2.1.current_checkin =
      ({ history := [⟨"user", "hello"⟩, ⟨"model", "hi"⟩, ⟨"user", "ok"⟩,
                     ⟨"model", "q"⟩, ⟨"user", "fine"⟩] } : ConversationState).current_checkin :=
  C8_fallback_turn_contract (fun l => l.headD "") ({})
    ({ history := [⟨"user", "hello"⟩, ⟨"model", "hi"⟩, ⟨"user", "ok"⟩,
                   ⟨"model", "q"⟩, ⟨"user", "fine"⟩] }) (by decide) (by decide)

/-- Helper: table lower-casing never turns a non-digit into a digit. -/
theorem lowerChar_no_digit {c : Char} (h : c.isDigit = false) :
    (lowerChar c).isDigit = false := by
  unfold lowerChar
  by_cases h1 : c = 'A'
  · rw [if_pos h1]; decide
  rw [if_neg h1]
  by_cases h2 : c = 'B'
  · rw [if_pos h2]; decide
  rw [if_neg h2]
  by_cases h3 : c = 'C'
  · rw [if_pos h3]; decide
  rw [if_neg h3]
  by_cases h4 : c = 'D'
  · rw [if_pos h4]; decide
  rw [if_neg h4]
  by_cases h5 : c = 'E'
  · rw [if_pos h5]; decide
  rw [if_neg h5]
  by_cases h6 : c = 'F'
  · rw [if_pos h6]; decide
  rw [if_neg h6]
  by_cases h7 : c = 'G'
  · rw [if_pos h7]; decide
  rw [if_neg h7]
  by_cases h8 : c = 'H'
  · rw [if_pos h8]; decide
  rw [if_neg h8]
  by_cases h9 : c = 'I'
  · rw [if_pos h9]; decide
  rw [if_neg h9]
  by_cases h10 : c = 'J'
  · rw [if_pos h10]; decide
  rw [if_neg h10]
  by_cases h11 : c = 'K'
  · rw [if_pos h11]; decide
  rw [if_neg h11]
  by_cases h12 : c = 'L'
  · rw [if_pos h12]; decide
  rw [if_neg h12]
  by_cases h13 : c = 'M'
  · rw [if_pos h13]; decide
  rw [if_neg h13]
  by_cases h14 : c = 'N'
  · rw [if_pos h14]; decide
  rw [if_neg h14]
  by_cases h15 : c = 'O'
  · rw [if_pos h15]; decide
  rw [if_neg h15]
  by_cases h16 : c = 'P'
  · rw [if_pos h16]; decide
  rw [if_neg h16]
  by_cases h17 : c = 'Q'
  · rw [if_pos h17]; decide
  rw [if_neg h17]
  by_cases h18 : c = 'R'
  · rw [if_pos h18]; decide
  rw [if_neg h18]
  by_cases h19 : c = 'S'
  · rw [if_pos h19]; decide
  rw [if_neg h19]
  by_cases h20 : c = 'T'
  · rw [if_pos h20]; decide
  rw [if_neg h20]
  by_cases h21 : c = 'U'
  · rw [if_pos h21]; decide
  rw [if_neg h21]
  by_cases h22 : c = 'V'
  · rw [if_pos h22]; decide
  rw [if_neg h22]
  by_cases h23 : c = 'W'
  · rw [if_pos h23]; decide
  rw [if_neg h23]
  by_cases h24 : c = 'X'
  · rw [if_pos h24]; decide
  rw [if_neg h24]
  by_cases h25 : c = 'Y'
  · rw [if_pos h25]; decide
  rw [if_neg h25]
  by_cases h26 : c = 'Z'
  · rw [if_pos h26]; decide
  rw [if_neg h26]
  exact h

theorem lowerL_no_digit {l : List Char} (h : ∀ c ∈ l, c.isDigit = false) :
    ∀ c ∈ lowerL l, c.isDigit = false := by
  intro c hc
  rw [lowerL, List.mem_map] at hc
  obtain ⟨d, hd, rfl⟩ := hc
  exact lowerChar_no_digit (h d hd)

theorem mem_of_mem_dropWhile {p : Char → Bool} {l : List Char} {c : Char}
    (h : c ∈ l.dropWhile p) : c ∈ l := by
  induction l with
  | nil => simp at h
  | cons d rest ih =>
    rw [List.dropWhile] at h
    cases hp : p d <;> rw [hp] at h
    · simp at h
      simp [h]
    · exact List.mem_cons_of_mem _ (ih h)

theorem mem_of_mem_stripL {l : List Char} {c : Char} (h : c ∈ stripL l) :
    c ∈ l := by
  unfold stripL at h
  rw [List.mem_reverse] at h
  have h2 := mem_of_mem_dropWhile h
  rw [List.mem_reverse] at h2
  exact mem_of_mem_dropWhile h2

theorem mem_of_mem_takeBefore {sep l : List Char} {c : Char}
    (h : c ∈ takeBefore sep l) : c ∈ l := by
  induction l with
  | nil => simp [takeBefore] at h
  | cons d rest ih =>
    rw [takeBefore] at h
    split_ifs at h
    · simp at h
    · rcases List.mem_cons.mp h with h1 | h1
      · simp [h1]
      · exact List.mem_cons_of_mem _ (ih h1)

theorem mem_of_mem_splitOnChar {sep : Char} {l p : List Char} {c : Char}
    (hp : p ∈ splitOnChar sep l) (hc : c ∈ p) : c ∈ l := by
  induction l generalizing p with
  | nil =>
    simp [splitOnChar] at hp
    subst hp
    simp at hc
  | cons d rest ih =>
    rw [splitOnChar] at hp
    split_ifs at hp
    · rcases List.mem_cons.mp hp with h1 | h1
      · subst h1; simp at hc
      · exact List.mem_cons_of_mem _ (ih h1 hc)
    · rcases hrec : splitOnChar sep rest with _ | ⟨q, qs⟩
      · rw [hrec] at hp
        simp at hp
        subst hp
        simp at hc
        simp [hc]
      · rw [hrec] at hp
        rcases List.mem_cons.mp hp with h1 | h1
        · subst h1
          rcases List.mem_cons.mp hc with h2 | h2
          · simp [h2]
          · exact List.mem_cons_of_mem _ (ih (hrec ▸ List.mem_cons_self q qs) h2)
        · exact List.mem_cons_of_mem _ (ih (hrec ▸ List.mem_cons_of_mem q h1) hc)

theorem mem_of_mem_splitOnSubGo {sep : List Char} {fuel : Nat} {l p : List Char}
    {c : Char} (hp : p ∈ splitOnSubGo sep fuel l) (hc : c ∈ p) : c ∈ l := by
  induction fuel generalizing l p with
  | zero =>
    cases l with
    | nil => simp [splitOnSubGo] at hp; subst hp; simp at hc
    | cons d rest =>
      simp [splitOnSubGo] at hp
      subst hp
      exact hc
  | succ fuel ih =>
    cases l with
    | nil => simp [splitOnSubGo] at hp; subst hp; simp at hc
    | cons d rest =>
      rw [splitOnSubGo] at hp
      split_ifs at hp
      · rcases List.mem_cons.mp hp with h1 | h1
        · subst h1; simp at hc
        · exact List.mem_of_mem_drop (ih h1 hc)
      · rcases hrec : splitOnSubGo sep fuel rest with _ | ⟨q, qs⟩
        · rw [hrec] at hp
          simp at hp
          subst hp
          simp at hc
          simp [hc]
        · rw [hrec] at hp
          rcases List.mem_cons.mp hp with h1 | h1
          · subst h1
            rcases List.mem_cons.mp hc with h2 | h2
            · simp [h2]
            · exact List.mem_cons_of_mem _ (ih (hrec ▸ List.mem_cons_self q qs) h2)
          · exact List.mem_cons_of_mem _ (ih (hrec ▸ List.mem_cons_of_mem q h1) hc)

theorem firstNumTok_eq_none {l : List Char} (h : ∀ c ∈ l, c.isDigit = false) :
    firstNumTok l = none := by
  induction l with
  | nil => rfl
  | cons d rest ih =>
    rw [firstNumTok]
    rw [h d (List.mem_cons_self d rest)]
    simp only [if_false, Bool.false_eq_true]
    exact ih fun c hc => h c (List.mem_cons_of_mem _ hc)

theorem extract_first_number_eq_none {l : List Char}
    (h : ∀ c ∈ l, c.isDigit = false) : extract_first_number l = none := by
  unfold extract_first_number
  rw [firstNumTok_eq_none h]
  rfl

theorem isBareNum_eq_false {p : List Char} (h : ∀ c ∈ p, c.isDigit = false) :
    isBareNum p = false := by
  unfold isBareNum
  rcases hq : removeDots (stripL p) with _ | ⟨c, cs⟩
  · simp [hq]
  · have hcmem : c ∈ removeDots (stripL p) := by rw [hq]; exact List.mem_cons_self c cs
    have hcp : c ∈ p := mem_of_mem_stripL (List.mem_of_mem_filter hcmem)
    simp [hq, h c hcp]

theorem bareNums_all_rejected {parts : List (List Char)}
    (h : ∀ p ∈ parts, isBareNum p = false) : bareNums parts = some [] := by
  induction parts with
  | nil => rfl
  | cons p ps ih =>
    rw [bareNums]
    rw [h p (List.mem_cons_self p ps)]
    simp only [Bool.false_eq_true, if_false]
    exact ih fun q hq => h q (List.mem_cons_of_mem _ hq)


theorem mem_of_mem_splitOnSub {sep l p : List Char} {c : Char}
    (hp : p ∈ splitOnSub sep l) (hc : c ∈ p) : c ∈ l :=
  mem_of_mem_splitOnSubGo hp hc

/-- C4: an input with no digit character anywhere parses as unparseable:
both parse_int and parse_float return none (not zero, and — the embedding
being a total function — not a raised exception). -/
theorem C4_no_digits_unparseable (s : String)
    (h : ∀ c ∈ s.toList, c.isDigit = false) :
    parse_float s = none ∧ parse_int s = none := by
  have h0 : ∀ c ∈ stripL (lowerL s.toList), c.isDigit = false :=
    fun c hc => lowerL_no_digit h c (mem_of_mem_stripL hc)
  have h1 : ∀ c ∈ (if occursIn OUTOF (stripL (lowerL s.toList)) then
      stripL (takeBefore OUTOF (stripL (lowerL s.toList)))
      else stripL (lowerL s.toList)), c.isDigit = false := by
    split_ifs
    · exact fun c hc => h0 c (mem_of_mem_takeBefore (mem_of_mem_stripL hc))
    · exact h0
  constructor
  · unfold parse_float
    dsimp only
    set s1 := (if occursIn OUTOF (stripL (lowerL s.toList)) then
      stripL (takeBefore OUTOF (stripL (lowerL s.toList)))
      else stripL (lowerL s.toList)) with hs1
    have h2 : ∀ c ∈ (if s1.contains '/' then stripL (takeBefore (['/']) s1) else s1),
        c.isDigit = false := by
      split_ifs
      · exact fun c hc => h1 c (mem_of_mem_takeBefore (mem_of_mem_stripL hc))
      · exact h1
    set s2 := (if s1.contains '/' then stripL (takeBefore (['/']) s1) else s1) with hs2
    have hA : List.filterMap extract_first_number (splitOnSub ORSEP s1) = [] :=
      List.filterMap_eq_nil_iff.mpr fun p hp =>
        extract_first_number_eq_none fun c hc => h1 c (mem_of_mem_splitOnSub hp hc)
    have hB : bareNums (splitOnChar '-' s2) = some [] :=
      bareNums_all_rejected fun p hp =>
        isBareNum_eq_false fun c hc => h2 c (mem_of_mem_splitOnChar hp hc)
    have hC : extract_first_number s2 = none := extract_first_number_eq_none h2
    simp [hA, hB, hC]
  · unfold parse_int
    dsimp only
    set s1 := (if occursIn OUTOF (stripL (lowerL s.toList)) then
      stripL (takeBefore OUTOF (stripL (lowerL s.toList)))
      else stripL (lowerL s.toList)) with hs1
    have h2 : ∀ c ∈ (if s1.contains '/' then stripL (takeBefore (['/']) s1) else s1),
        c.isDigit = false := by
      split_ifs
      · exact fun c hc => h1 c (mem_of_mem_takeBefore (mem_of_mem_stripL hc))
      · exact h1
    set s2 := (if s1.contains '/' then stripL (takeBefore (['/']) s1) else s1) with hs2
    have hA : List.filterMap extract_first_number (splitOnSub ORSEP s1) = [] :=
      List.filterMap_eq_nil_iff.mpr fun p hp =>
        extract_first_number_eq_none fun c hc => h1 c (mem_of_mem_splitOnSub hp hc)
    have hB : bareNums (splitOnChar '-' s2) = some [] :=
      bareNums_all_rejected fun p hp =>
        isBareNum_eq_false fun c hc => h2 c (mem_of_mem_splitOnChar hp hc)
    have hC : extract_first_number s2 = none := extract_first_number_eq_none h2
    simp [hA, hB, hC]


/-- Witness for C4 at the concrete digit-free input "thirty". -/
theorem C4_no_digits_unparseable_witness :
    (∀ c ∈ ("thirty").toList, c.isDigit = false) ∧
    (parse_float ("thirty") = none ∧ parse_int ("thirty") = none) :=
  ⟨by decide, C4_no_digits_unparseable ("thirty") (by decide)⟩


/-- Helper: the `sleep_hours` block either leaves the field alone or writes a
parsed in-range value. -/
theorem applySleepHours_cases (u : Updates) (old : Option ℚ) :
    applySleepHours u old = old ∨
    ∃ v q, u.sleep_hours = some v ∧ parse_float (PyVal.pyStr v) = some q ∧
      (1 ≤ q ∧ q ≤ 12) ∧ applySleepHours u old = some q := by
  unfold applySleepHours
  rcases hv : u.sleep_hours with _ | v
  · simp [hv]
  · rcases hp : parse_float (PyVal.pyStr v) with _ | q
    · simp [hv, hp]
    · by_cases hq : 1 ≤ q ∧ q ≤ 12
      · right
        exact ⟨v, q, rfl, hp, hq, by simp [hv, hp, hq]⟩
      · simp [hv, hp, hq]

/-- Helper: the `water_glasses` block either leaves the field alone or writes a
parsed in-range value. -/
theorem applyWaterGlasses_cases (u : Updates) (old : Option ℤ) :
    applyWaterGlasses u old = old ∨
    ∃ v q, u.water_glasses = some v ∧ parse_int (PyVal.pyStr v) = some q ∧
      (0 ≤ q ∧ q ≤ 20) ∧ applyWaterGlasses u old = some q := by
  unfold applyWaterGlasses
  rcases hv : u.water_glasses with _ | v
  · simp [hv]
  · rcases hp : parse_int (PyVal.pyStr v) with _ | q
    · simp [hv, hp]
    · by_cases hq : 0 ≤ q ∧ q ≤ 20
      · right
        exact ⟨v, q, rfl, hp, hq, by simp [hv, hp, hq]⟩
      · simp [hv, hp, hq]

/-- Helper: the `mood_score` block either leaves the field alone or writes a
parsed in-range value. -/
theorem applyMoodScore_cases (u : Updates) (old : Option ℤ) :
    applyMoodScore u old = old ∨
    ∃ v q, u.mood_score = some v ∧ parse_int (PyVal.pyStr v) = some q ∧
      (1 ≤ q ∧ q ≤ 5) ∧ applyMoodScore u old = some q := by
  unfold applyMoodScore
  rcases hv : u.mood_score with _ | v
  · simp [hv]
  · rcases hp : parse_int (PyVal.pyStr v) with _ | q
    · simp [hv, hp]
    · by_cases hq : 1 ≤ q ∧ q ≤ 5
      · right
        exact ⟨v, q, rfl, hp, hq, by simp [hv, hp, hq]⟩
      · simp [hv, hp, hq]

/-- Helper: the `energy_score` block either leaves the field alone or writes a
parsed in-range value. -/
theorem applyEnergyScore_cases (u : Updates) (old : Option ℤ) :
    applyEnergyScore u old = old ∨
    ∃ v q, u.energy_score = some v ∧ parse_int (PyVal.pyStr v) = some q ∧
      (1 ≤ q ∧ q ≤ 5) ∧ applyEnergyScore u old = some q := by
  unfold applyEnergyScore
  rcases hv : u.energy_score with _ | v
  · simp [hv]
  · rcases hp : parse_int (PyVal.pyStr v) with _ | q
    · simp [hv, hp]
    · by_cases hq : 1 ≤ q ∧ q ≤ 5
      · right
        exact ⟨v, q, rfl, hp, hq, by simp [hv, hp, hq]⟩
      · simp [hv, hp, hq]

/-- Helper: the `stress_score` block either leaves the field alone or writes a
parsed in-range value. -/
theorem applyStressScore_cases (u : Updates) (old : Option ℤ) :
    applyStressScore u old = old ∨
    ∃ v q, u.stress_score = some v ∧ parse_int (PyVal.pyStr v) = some q ∧
      (1 ≤ q ∧ q ≤ 10) ∧ applyStressScore u old = some q := by
  unfold applyStressScore
  rcases hv : u.stress_score with _ | v
  · simp [hv]
  · rcases hp : parse_int (PyVal.pyStr v) with _ | q
    · simp [hv, hp]
    · by_cases hq : 1 ≤ q ∧ q ≤ 10
      · right
        exact ⟨v, q, rfl, hp, hq, by simp [hv, hp, hq]⟩
      · simp [hv, hp, hq]

/-- Helper: the `exercise_minutes` block either leaves the field alone or writes a
parsed in-range value. -/
theorem applyExerciseMinutes_cases (u : Updates) (old : Option ℤ) :
    applyExerciseMinutes u old = old ∨
    ∃ v q, u.exercise_minutes = some v ∧ parse_int (PyVal.pyStr v) = some q ∧
      (0 ≤ q ∧ q ≤ 300) ∧ applyExerciseMinutes u old = some q := by
  unfold applyExerciseMinutes
  rcases hv : u.exercise_minutes with _ | v
  · simp [hv]
  · rcases hp : parse_int (PyVal.pyStr v) with _ | q
    · simp [hv, hp]
    · by_cases hq : 0 ≤ q ∧ q ≤ 300
      · right
        exact ⟨v, q, rfl, hp, hq, by simp [hv, hp, hq]⟩
      · simp [hv, hp, hq]

/-- Helper: the `social_hours` block either leaves the field alone or writes a
parsed in-range value. -/
theorem applySocialHours_cases (u : Updates) (old : Option ℚ) :
    applySocialHours u old = old ∨
    ∃ v q, u.social_hours = some v ∧ parse_float (PyVal.pyStr v) = some q ∧
      (0 ≤ q ∧ q ≤ 24) ∧ applySocialHours u old = some q := by
  unfold applySocialHours
  rcases hv : u.social_hours with _ | v
  · simp [hv]
  · rcases hp : parse_float (PyVal.pyStr v) with _ | q
    · simp [hv, hp]
    · by_cases hq : 0 ≤ q ∧ q ≤ 24
      · right
        exact ⟨v, q, rfl, hp, hq, by simp [hv, hp, hq]⟩
      · simp [hv, hp, hq]

/-- Helper: the `alcohol_units` block either leaves the field alone or writes a
parsed in-range value. -/
theorem applyAlcoholUnits_cases (u : Updates) (old : Option ℤ) :
    applyAlcoholUnits u old = old ∨
    ∃ v q, u.alcohol_units = some v ∧ parse_int (PyVal.pyStr v) = some q ∧
      (0 ≤ q ∧ q ≤ 20) ∧ applyAlcoholUnits u old = some q := by
  unfold applyAlcoholUnits
  rcases hv : u.alcohol_units with _ | v
  · simp [hv]
  · rcases hp : parse_int (PyVal.pyStr v) with _ | q
    · simp [hv, hp]
    · by_cases hq : 0 ≤ q ∧ q ≤ 20
      · right
        exact ⟨v, q, rfl, hp, hq, by simp [hv, hp, hq]⟩
      · simp [hv, hp, hq]

/-- Helper: the `age` block either leaves the field alone or writes a
parsed in-range value. -/
theorem applyAge_cases (u : Updates) (old : Option ℤ) :
    applyAge u old = old ∨
    ∃ v q, u.age = some v ∧ parse_int (PyVal.pyStr v) = some q ∧
      (10 ≤ q ∧ q ≤ 120) ∧ applyAge u old = some q := by
  unfold applyAge
  rcases hv : u.age with _ | v
  · simp [hv]
  · rcases hp : parse_int (PyVal.pyStr v) with _ | q
    · simp [hv, hp]
    · by_cases hq : 10 ≤ q ∧ q ≤ 120
      · right
        exact ⟨v, q, rfl, hp, hq, by simp [hv, hp, hq]⟩
      · simp [hv, hp, hq]

/-- Helper: the `height_cm` block either leaves the field alone or writes a
parsed in-range value. -/
theorem applyHeightCm_cases (u : Updates) (old : Option ℚ) :
    applyHeightCm u old = old ∨
    ∃ v q, u.height_cm = some v ∧ parse_float (PyVal.pyStr v) = some q ∧
      (100 ≤ q ∧ q ≤ 250) ∧ applyHeightCm u old = some q := by
  unfold applyHeightCm
  rcases hv : u.height_cm with _ | v
  · simp [hv]
  · rcases hp : parse_float (PyVal.pyStr v) with _ | q
    · simp [hv, hp]
    · by_cases hq : 100 ≤ q ∧ q ≤ 250
      · right
        exact ⟨v, q, rfl, hp, hq, by simp [hv, hp, hq]⟩
      · simp [hv, hp, hq]

/-- Helper: the `weight_kg` block either leaves the field alone or writes a
parsed in-range value. -/
theorem applyWeightKg_cases (u : Updates) (old : Option ℚ) :
    applyWeightKg u old = old ∨
    ∃ v q, u.weight_kg = some v ∧ parse_float (PyVal.pyStr v) = some q ∧
      (30 ≤ q ∧ q ≤ 300) ∧ applyWeightKg u old = some q := by
  unfold applyWeightKg
  rcases hv : u.weight_kg with _ | v
  · simp [hv]
  · rcases hp : parse_float (PyVal.pyStr v) with _ | q
    · simp [hv, hp]
    · by_cases hq : 30 ≤ q ∧ q ≤ 300
      · right
        exact ⟨v, q, rfl, hp, hq, by simp [hv, hp, hq]⟩
      · simp [hv, hp, hq]
/-- C7: the update applier writes each numeric field only when parsing
succeeds and the value lies in the field's declared inclusive range (sleep
[1,12], water [0,20], mood/energy [1,5], stress [1,10], exercise minutes
[0,300], social hours [0,24], alcohol [0,20], age [10,120], height
[100,250], weight [30,300]); a rejected field is left untouched, and the
applier is a total function, so no fault reaches the caller. -/
theorem C7_update_applier_ranges (sess : ConversationState) (u : Updates) :
    ((apply_updates sess u).current_checkin.sleep_hours = sess.current_checkin.sleep_hours ∨
      ∃ v q, u.sleep_hours = some v ∧ parse_float (PyVal.pyStr v) = some q ∧
        (1 ≤ q ∧ q ≤ 12) ∧ (apply_updates sess u).current_checkin.sleep_hours = some q) ∧
    ((apply_updates sess u).current_checkin.water_glasses = sess.current_checkin.water_glasses ∨
      ∃ v q, u.water_glasses = some v ∧ parse_int (PyVal.pyStr v) = some q ∧
        (0 ≤ q ∧ q ≤ 20) ∧ (apply_updates sess u).current_checkin.water_glasses = some q) ∧
    ((apply_updates sess u).current_checkin.mood_score = sess.current_checkin.mood_score ∨
      ∃ v q, u.mood_score = some v ∧ parse_int (PyVal.pyStr v) = some q ∧
        (1 ≤ q ∧ q ≤ 5) ∧ (apply_updates sess u).current_checkin.mood_score = some q) ∧
    ((apply_updates sess u).current_checkin.energy_score = sess.current_checkin.energy_score ∨
      ∃ v q, u.energy_score = some v ∧ parse_int (PyVal.pyStr v) = some q ∧
        (1 ≤ q ∧ q ≤ 5) ∧ (apply_updates sess u).current_checkin.energy_score = some q) ∧
    ((apply_updates sess u).current_checkin.stress_score = sess.current_checkin.stress_score ∨
      ∃ v q, u.stress_score = some v ∧ parse_int (PyVal.pyStr v) = some q ∧
        (1 ≤ q ∧ q ≤ 10) ∧ (apply_updates sess u).current_checkin.stress_score = some q) ∧
    ((apply_updates sess u).current_checkin.exercise_minutes = sess.current_checkin.exercise_minutes ∨
      ∃ v q, u.exercise_minutes = some v ∧ parse_int (PyVal.pyStr v) = some q ∧
        (0 ≤ q ∧ q ≤ 300) ∧ (apply_updates sess u).current_checkin.exercise_minutes = some q) ∧
    ((apply_updates sess u).current_checkin.social_hours = sess.current_checkin.social_hours ∨
      ∃ v q, u.social_hours = some v ∧ parse_float (PyVal.pyStr v) = some q ∧
        (0 ≤ q ∧ q ≤ 24) ∧ (apply_updates sess u).current_checkin.social_hours = some q) ∧
    ((apply_updates sess u).current_checkin.alcohol_units = sess.current_checkin.alcohol_units ∨
      ∃ v q, u.alcohol_units = some v ∧ parse_int (PyVal.pyStr v) = some q ∧
        (0 ≤ q ∧ q ≤ 20) ∧ (apply_updates sess u).current_checkin.alcohol_units = some q) ∧
    ((apply_updates sess u).profile.age = sess.profile.age ∨
      ∃ v q, u.age = some v ∧ parse_int (PyVal.pyStr v) = some q ∧
        (10 ≤ q ∧ q ≤ 120) ∧ (apply_updates sess u).profile.age = some q) ∧
    ((apply_updates sess u).profile.height_cm = sess.profile.height_cm ∨
      ∃ v q, u.height_cm = some v ∧ parse_float (PyVal.pyStr v) = some q ∧
        (100 ≤ q ∧ q ≤ 250) ∧ (apply_updates sess u).profile.height_cm = some q) ∧
    ((apply_updates sess u).profile.weight_kg = sess.profile.weight_kg ∨
      ∃ v q, u.weight_kg = some v ∧ parse_float (PyVal.pyStr v) = some q ∧
        (30 ≤ q ∧ q ≤ 300) ∧ (apply_updates sess u).profile.weight_kg = some q) := by
  exact ⟨applySleepHours_cases u sess.current_checkin.sleep_hours,
    applyWaterGlasses_cases u sess.current_checkin.water_glasses,
    applyMoodScore_cases u sess.current_checkin.mood_score,
    applyEnergyScore_cases u sess.current_checkin.energy_score,
    applyStressScore_cases u sess.current_checkin.stress_score,
    applyExerciseMinutes_cases u sess.current_checkin.exercise_minutes,
    applySocialHours_cases u sess.current_checkin.social_hours,
    applyAlcoholUnits_cases u sess.current_checkin.alcohol_units,
    applyAge_cases u sess.profile.age,
    applyHeightCm_cases u sess.profile.height_cm,
    applyWeightKg_cases u sess.profile.weight_kg⟩

theorem isSome_mono_of {α : Type} {old res : Option α}
    (h : res = old ∨ ∃ x, res = some x) : old.isSome ≤ res.isSome := by
  rcases h with rfl | ⟨x, rfl⟩
  · exact le_rfl
  · simp

theorem applySleepHours_mono (u : Updates) (old : Option _) :
    old.isSome ≤ (applySleepHours u old).isSome :=
  isSome_mono_of (by
    rcases applySleepHours_cases u old with h | ⟨v, q, _, _, _, h⟩
    · exact Or.inl h
    · exact Or.inr ⟨q, h⟩)

theorem applyWaterGlasses_mono (u : Updates) (old : Option _) :
    old.isSome ≤ (applyWaterGlasses u old).isSome :=
  isSome_mono_of (by
    rcases applyWaterGlasses_cases u old with h | ⟨v, q, _, _, _, h⟩
    · exact Or.inl h
    · exact Or.inr ⟨q, h⟩)

theorem applyMoodScore_mono (u : Updates) (old : Option _) :
    old.isSome ≤ (applyMoodScore u old).isSome :=
  isSome_mono_of (by
    rcases applyMoodScore_cases u old with h | ⟨v, q, _, _, _, h⟩
    · exact Or.inl h
    · exact Or.inr ⟨q, h⟩)

theorem applyEnergyScore_mono (u : Updates) (old : Option _) :
    old.isSome ≤ (applyEnergyScore u old).isSome :=
  isSome_mono_of (by
    rcases applyEnergyScore_cases u old with h | ⟨v, q, _, _, _, h⟩
    · exact Or.inl h
    · exact Or.inr ⟨q, h⟩)

theorem applyStressScore_mono (u : Updates) (old : Option _) :
    old.isSome ≤ (applyStressScore u old).isSome :=
  isSome_mono_of (by
    rcases applyStressScore_cases u old with h | ⟨v, q, _, _, _, h⟩
    · exact Or.inl h
    · exact Or.inr ⟨q, h⟩)

theorem applyExerciseMinutes_mono (u : Updates) (old : Option _) :
    old.isSome ≤ (applyExerciseMinutes u old).isSome :=
  isSome_mono_of (by
    rcases applyExerciseMinutes_cases u old with h | ⟨v, q, _, _, _, h⟩
    · exact Or.inl h
    · exact Or.inr ⟨q, h⟩)

theorem applySocialHours_mono (u : Updates) (old : Option _) :
    old.isSome ≤ (applySocialHours u old).isSome :=
  isSome_mono_of (by
    rcases applySocialHours_cases u old with h | ⟨v, q, _, _, _, h⟩
    · exact Or.inl h
    · exact Or.inr ⟨q, h⟩)

theorem applyAlcoholUnits_mono (u : Updates) (old : Option _) :
    old.isSome ≤ (applyAlcoholUnits u old).isSome :=
  isSome_mono_of (by
    rcases applyAlcoholUnits_cases u old with h | ⟨v, q, _, _, _, h⟩
    · exact Or.inl h
    · exact Or.inr ⟨q, h⟩)

theorem applyAge_mono (u : Updates) (old : Option _) :
    old.isSome ≤ (applyAge u old).isSome :=
  isSome_mono_of (by
    rcases applyAge_cases u old with h | ⟨v, q, _, _, _, h⟩
    · exact Or.inl h
    · exact Or.inr ⟨q, h⟩)

theorem applyHeightCm_mono (u : Updates) (old : Option _) :
    old.isSome ≤ (applyHeightCm u old).isSome :=
  isSome_mono_of (by
    rcases applyHeightCm_cases u old with h | ⟨v, q, _, _, _, h⟩
    · exact Or.inl h
    · exact Or.inr ⟨q, h⟩)

theorem applyWeightKg_mono (u : Updates) (old : Option _) :
    old.isSome ≤ (applyWeightKg u old).isSome :=
  isSome_mono_of (by
    rcases applyWeightKg_cases u old with h | ⟨v, q, _, _, _, h⟩
    · exact Or.inl h
    · exact Or.inr ⟨q, h⟩)

theorem applyExerciseType_mono (u : Updates) (old : Option String) :
    old.isSome ≤ (applyExerciseType u old).isSome := by
  unfold applyExerciseType
  rcases hv : u.exercise_type with _ | v
  · exact le_rfl
  · simp only []
    split_ifs <;> simp

theorem applySex_mono (u : Updates) (old : Option String) :
    old.isSome ≤ (applySex u old).isSome := by
  unfold applySex
  rcases hv : u.sex with _ | v
  · exact le_rfl
  · simp only []
    split_ifs <;> simp

theorem applySmokingToday_mono (u : Updates) (old : Option Bool) :
    old.isSome ≤ (applySmokingToday u old).isSome := by
  unfold applySmokingToday
  rcases hv : u.smoking_today with _ | v
  · exact le_rfl
  · rcases v with s | b
    · simp only []
      split_ifs <;> simp
    · cases b <;> simp

theorem applyOrigin_mono (u : Updates) (old : Option String) :
    old.isSome ≤ (applyOrigin u old).isSome := by
  unfold applyOrigin
  rcases hv : u.origin with _ | v
  · exact le_rfl
  · simp

theorem applyReligion_mono (u : Updates) (old : Option String) :
    old.isSome ≤ (applyReligion u old).isSome := by
  unfold applyReligion
  rcases hv : u.religion with _ | v
  · exact le_rfl
  · simp


theorem tally_step {b b2 : Bool} {acc acc2 : Nat} (hb : b = true → b2 = true)
    (hacc : acc ≤ acc2) :
    (if b = true then acc + 1 else acc) ≤ (if b2 = true then acc2 + 1 else acc2) := by
  split_ifs with hc1 hc2
  · omega
  · exact absurd (hb hc1) hc2
  · omega
  · omega

theorem metricTally_mono {p p2 : UserProfile} {c c2 : DailyCheckIn}
    (hage : p.age.isSome ≤ p2.age.isSome)
    (hsex : p.sex.isSome ≤ p2.sex.isSome)
    (hheight : p.height_cm.isSome ≤ p2.height_cm.isSome)
    (hweight : p.weight_kg.isSome ≤ p2.weight_kg.isSome)
    (horigin : p.origin.isSome ≤ p2.origin.isSome)
    (hreligion : p.religion.isSome ≤ p2.religion.isSome)
    (hsleep : c.sleep_hours.isSome ≤ c2.sleep_hours.isSome)
    (hwater : c.water_glasses.isSome ≤ c2.water_glasses.isSome)
    (hmood : c.mood_score.isSome ≤ c2.mood_score.isSome)
    (henergy : c.energy_score.isSome ≤ c2.energy_score.isSome)
    (hstress : c.stress_score.isSome ≤ c2.stress_score.isSome)
    (hexmin : c.exercise_minutes.isSome ≤ c2.exercise_minutes.isSome)
    (hextype : c.exercise_type.isSome ≤ c2.exercise_type.isSome)
    (hsocial : c.social_hours.isSome ≤ c2.social_hours.isSome)
    (halcohol : c.alcohol_units.isSome ≤ c2.alcohol_units.isSome)
    (hsmoking : c.smoking_today.isSome ≤ c2.smoking_today.isSome)
    {m : String} (hm : m ≠ "dietary_preference") {acc acc2 : Nat}
    (hacc : acc ≤ acc2) :
    metricTally p c acc m ≤ metricTally p2 c2 acc2 m := by
  by_cases h1 : m = ("age")
  · subst h1
    simp only [metricTally]
    simp
    exact tally_step (Bool.le_iff_imp.mp hage) hacc
  by_cases h2 : m = ("sex")
  · subst h2
    simp only [metricTally]
    simp
    exact tally_step (Bool.le_iff_imp.mp hsex) hacc
  by_cases h3 : m = ("height_cm")
  · subst h3
    simp only [metricTally]
    simp
    exact tally_step (Bool.le_iff_imp.mp hheight) hacc
  by_cases h4 : m = ("weight_kg")
  · subst h4
    simp only [metricTally]
    simp
    exact tally_step (Bool.le_iff_imp.mp hweight) hacc
  by_cases h5 : m = ("origin")
  · subst h5
    simp only [metricTally]
    simp
    exact tally_step (Bool.le_iff_imp.mp horigin) hacc
  by_cases h6 : m = ("religion")
  · subst h6
    simp only [metricTally]
    simp
    exact tally_step (Bool.le_iff_imp.mp hreligion) hacc
  by_cases h7 : m = ("sleep_hours")
  · subst h7
    simp only [metricTally]
    simp
    exact tally_step (Bool.le_iff_imp.mp hsleep) hacc
  by_cases h8 : m = ("water_glasses")
  · subst h8
    simp only [metricTally]
    simp
    exact tally_step (Bool.le_iff_imp.mp hwater) hacc
  by_cases h9 : m = ("mood_score")
  · subst h9
    simp only [metricTally]
    simp
    exact tally_step (Bool.le_iff_imp.mp hmood) hacc
  by_cases h10 : m = ("energy_score")
  · subst h10
    simp only [metricTally]
    simp
    exact tally_step (Bool.le_iff_imp.mp henergy) hacc
  by_cases h11 : m = ("stress_score")
  · subst h11
    simp only [metricTally]
    simp
    exact tally_step (Bool.le_iff_imp.mp hstress) hacc
  by_cases h12 : m = ("exercise_minutes")
  · subst h12
    simp only [metricTally]
    simp
    exact tally_step (Bool.le_iff_imp.mp hexmin) hacc
  by_cases h13 : m = ("exercise_type")
  · subst h13
    simp only [metricTally]
    simp
    exact tally_step (Bool.le_iff_imp.mp hextype) hacc
  by_cases h14 : m = ("social_hours")
  · subst h14
    simp only [metricTally]
    simp
    exact tally_step (Bool.le_iff_imp.mp hsocial) hacc
  by_cases h15 : m = ("alcohol_units")
  · subst h15
    simp only [metricTally]
    simp
    exact tally_step (Bool.le_iff_imp.mp halcohol) hacc
  by_cases h16 : m = ("smoking_today")
  · subst h16
    simp only [metricTally]
    simp
    exact tally_step (Bool.le_iff_imp.mp hsmoking) hacc
  simp only [metricTally, h1, h2, h3, h4, h5, h6, h7, h8, h9, h10, h11, h12, h13, h14, h15, h16, hm]
  simp [h1, h2, h3, h4, h5, h6, h7, h8, h9, h10, h11, h12, h13, h14, h15, h16, hm]
  exact hacc

theorem collectedCount_mono {p p2 : UserProfile} {c c2 : DailyCheckIn}
    (hage : p.age.isSome ≤ p2.age.isSome)
    (hsex : p.sex.isSome ≤ p2.sex.isSome)
    (hheight : p.height_cm.isSome ≤ p2.height_cm.isSome)
    (hweight : p.weight_kg.isSome ≤ p2.weight_kg.isSome)
    (horigin : p.origin.isSome ≤ p2.origin.isSome)
    (hreligion : p.religion.isSome ≤ p2.religion.isSome)
    (hsleep : c.sleep_hours.isSome ≤ c2.sleep_hours.isSome)
    (hwater : c.water_glasses.isSome ≤ c2.water_glasses.isSome)
    (hmood : c.mood_score.isSome ≤ c2.mood_score.isSome)
    (henergy : c.energy_score.isSome ≤ c2.energy_score.isSome)
    (hstress : c.stress_score.isSome ≤ c2.stress_score.isSome)
    (hexmin : c.exercise_minutes.isSome ≤ c2.exercise_minutes.isSome)
    (hextype : c.exercise_type.isSome ≤ c2.exercise_type.isSome)
    (hsocial : c.social_hours.isSome ≤ c2.social_hours.isSome)
    (halcohol : c.alcohol_units.isSome ≤ c2.alcohol_units.isSome)
    (hsmoking : c.smoking_today.isSome ≤ c2.smoking_today.isSome) :
    ∀ (L : List String), "dietary_preference" ∉ L →
      ∀ acc acc2 : Nat, acc ≤ acc2 →
        List.foldl (metricTally p c) acc L ≤ List.foldl (metricTally p2 c2) acc2 L := by
  intro L
  induction L with
  | nil =>
    intro _ acc acc2 hacc
    simpa using hacc
  | cons m rest ih =>
    intro hL acc acc2 hacc
    simp only [List.foldl]
    refine ih (fun hx => hL (List.mem_cons_of_mem _ hx)) _ _ ?_
    have hm : m ≠ "dietary_preference" := fun hmm => hL (hmm ▸ List.mem_cons_self m rest)
    exact metricTally_mono hage hsex hheight hweight horigin hreligion hsleep hwater hmood henergy hstress hexmin hextype hsocial halcohol hsmoking hm hacc


/-- C10 (amended): applying a payload never clears a set (non-None) field —
every optional profile and check-in field only moves from unset to set — and
for every priority list not containing `dietary_preference` the collected
count used by the completion check never decreases. -/
theorem C10_no_uncollect (sess : ConversationState) (u : Updates)
    (L : List String) (hL : ("dietary_preference") ∉ L) :
    (     sess.profile.age.isSome ≤ (apply_updates sess u).profile.age.isSome ∧
     sess.profile.sex.isSome ≤ (apply_updates sess u).profile.sex.isSome ∧
     sess.profile.height_cm.isSome ≤ (apply_updates sess u).profile.height_cm.isSome ∧
     sess.profile.weight_kg.isSome ≤ (apply_updates sess u).profile.weight_kg.isSome ∧
     sess.profile.origin.isSome ≤ (apply_updates sess u).profile.origin.isSome ∧
     sess.profile.religion.isSome ≤ (apply_updates sess u).profile.religion.isSome ∧
     sess.current_checkin.sleep_hours.isSome ≤ (apply_updates sess u).current_checkin.sleep_hours.isSome ∧
     sess.current_checkin.water_glasses.isSome ≤ (apply_updates sess u).current_checkin.water_glasses.isSome ∧
     sess.current_checkin.mood_score.isSome ≤ (apply_updates sess u).current_checkin.mood_score.isSome ∧
     sess.current_checkin.energy_score.isSome ≤ (apply_updates sess u).current_checkin.energy_score.isSome ∧
     sess.current_checkin.stress_score.isSome ≤ (apply_updates sess u).current_checkin.stress_score.isSome ∧
     sess.current_checkin.exercise_minutes.isSome ≤ (apply_updates sess u).current_checkin.exercise_minutes.isSome ∧
     sess.current_checkin.exercise_type.isSome ≤ (apply_updates sess u).current_checkin.exercise_type.isSome ∧
     sess.current_checkin.social_hours.isSome ≤ (apply_updates sess u).current_checkin.social_hours.isSome ∧
     sess.current_checkin.alcohol_units.isSome ≤ (apply_updates sess u).current_checkin.alcohol_units.isSome ∧
     sess.current_checkin.smoking_today.isSome ≤ (apply_updates sess u).current_checkin.smoking_today.isSome) ∧
    collectedCount sess.profile sess.current_checkin L ≤
      collectedCount (apply_updates sess u).profile
        (apply_updates sess u).current_checkin L := by
  refine ⟨⟨applyAge_mono u sess.profile.age,
      applySex_mono u sess.profile.sex,
      applyHeightCm_mono u sess.profile.height_cm,
      applyWeightKg_mono u sess.profile.weight_kg,
      applyOrigin_mono u sess.profile.origin,
      applyReligion_mono u sess.profile.religion,
      applySleepHours_mono u sess.current_checkin.sleep_hours,
      applyWaterGlasses_mono u sess.current_checkin.water_glasses,
      applyMoodScore_mono u sess.current_checkin.mood_score,
      applyEnergyScore_mono u sess.current_checkin.energy_score,
      applyStressScore_mono u sess.current_checkin.stress_score,
      applyExerciseMinutes_mono u sess.current_checkin.exercise_minutes,
      applyExerciseType_mono u sess.current_checkin.exercise_type,
      applySocialHours_mono u sess.current_checkin.social_hours,
      applyAlcoholUnits_mono u sess.current_checkin.alcohol_units,
      applySmokingToday_mono u sess.current_checkin.smoking_today⟩, ?_⟩
  exact collectedCount_mono
      (applyAge_mono u sess.profile.age)
      (applySex_mono u sess.profile.sex)
      (applyHeightCm_mono u sess.profile.height_cm)
      (applyWeightKg_mono u sess.profile.weight_kg)
      (applyOrigin_mono u sess.profile.origin)
      (applyReligion_mono u sess.profile.religion)
      (applySleepHours_mono u sess.current_checkin.sleep_hours)
      (applyWaterGlasses_mono u sess.current_checkin.water_glasses)
      (applyMoodScore_mono u sess.current_checkin.mood_score)
      (applyEnergyScore_mono u sess.current_checkin.energy_score)
      (applyStressScore_mono u sess.current_checkin.stress_score)
      (applyExerciseMinutes_mono u sess.current_checkin.exercise_minutes)
      (applyExerciseType_mono u sess.current_checkin.exercise_type)
      (applySocialHours_mono u sess.current_checkin.social_hours)
      (applyAlcoholUnits_mono u sess.current_checkin.alcohol_units)
      (applySmokingToday_mono u sess.current_checkin.smoking_today)
      L hL 0 0 le_rfl


/-- Witness for C10 (amended) on a concrete session, payload and list. -/
theorem C10_no_uncollect_witness :
    (("dietary_preference") ∉ issueMetricsGet ("general_wellness") []) ∧
    ((     ({ profile := { age := some 30 } } : ConversationState).profile.age.isSome ≤
       (apply_updates ({ profile := { age := some 30 } } : ConversationState) ({ age := some (PyVal.str ("44")) } : Updates)).profile.age.isSome ∧
     ({ profile := { age := some 30 } } : ConversationState).profile.sex.isSome ≤
       (apply_updates ({ profile := { age := some 30 } } : ConversationState) ({ age := some (PyVal.str ("44")) } : Updates)).profile.sex.isSome ∧
     ({ profile := { age := some 30 } } : ConversationState).profile.height_cm.isSome ≤
       (apply_updates ({ profile := { age := some 30 } } : ConversationState) ({ age := some (PyVal.str ("44")) } : Updates)).profile.height_cm.isSome ∧
     ({ profile := { age := some 30 } } : ConversationState).profile.weight_kg.isSome ≤
       (apply_updates ({ profile := { age := some 30 } } : ConversationState) ({ age := some (PyVal.str ("44")) } : Updates)).profile.weight_kg.isSome ∧
     ({ profile := { age := some 30 } } : ConversationState).profile.origin.isSome ≤
       (apply_updates ({ profile := { age := some 30 } } : ConversationState) ({ age := some (PyVal.str ("44")) } : Updates)).profile.origin.isSome ∧
     ({ profile := { age := some 30 } } : ConversationState).profile.religion.isSome ≤
       (apply_updates ({ profile := { age := some 30 } } : ConversationState) ({ age := some (PyVal.str ("44")) } : Updates)).profile.religion.isSome ∧
     ({ profile := { age := some 30 } } : ConversationState).current_checkin.sleep_hours.isSome ≤
       (apply_updates ({ profile := { age := some 30 } } : ConversationState) ({ age := some (PyVal.str ("44")) } : Updates)).current_checkin.sleep_hours.isSome ∧
     ({ profile := { age := some 30 } } : ConversationState).current_checkin.water_glasses.isSome ≤
       (apply_updates ({ profile := { age := some 30 } } : ConversationState) ({ age := some (PyVal.str ("44")) } : Updates)).current_checkin.water_glasses.isSome ∧
     ({ profile := { age := some 30 } } : ConversationState).current_checkin.mood_score.isSome ≤
       (apply_updates ({ profile := { age := some 30 } } : ConversationState) ({ age := some (PyVal.str ("44")) } : Updates)).current_checkin.mood_score.isSome ∧
     ({ profile := { age := some 30 } } : ConversationState).current_checkin.energy_score.isSome ≤
       (apply_updates ({ profile := { age := some 30 } } : ConversationState) ({ age := some (PyVal.str ("44")) } : Updates)).current_checkin.energy_score.isSome ∧
     ({ profile := { age := some 30 } } : ConversationState).current_checkin.stress_score.isSome ≤
       (apply_updates ({ profile := { age := some 30 } } : ConversationState) ({ age := some (PyVal.str ("44")) } : Updates)).current_checkin.stress_score.isSome ∧
     ({ profile := { age := some 30 } } : ConversationState).current_checkin.exercise_minutes.isSome ≤
       (apply_updates ({ profile := { age := some 30 } } : ConversationState) ({ age := some (PyVal.str ("44")) } : Updates)).current_checkin.exercise_minutes.isSome ∧
     ({ profile := { age := some 30 } } : ConversationState).current_checkin.exercise_type.isSome ≤
       (apply_updates ({ profile := { age := some 30 } } : ConversationState) ({ age := some (PyVal.str ("44")) } : Updates)).current_checkin.exercise_type.isSome ∧
     ({ profile := { age := some 30 } } : ConversationState).current_checkin.social_hours.isSome ≤
       (apply_updates ({ profile := { age := some 30 } } : ConversationState) ({ age := some (PyVal.str ("44")) } : Updates)).current_checkin.social_hours.isSome ∧
     ({ profile := { age := some 30 } } : ConversationState).current_checkin.alcohol_units.isSome ≤
       (apply_updates ({ profile := { age := some 30 } } : ConversationState) ({ age := some (PyVal.str ("44")) } : Updates)).current_checkin.alcohol_units.isSome ∧
     ({ profile := { age := some 30 } } : ConversationState).current_checkin.smoking_today.isSome ≤
       (apply_updates ({ profile := { age := some 30 } } : ConversationState) ({ age := some (PyVal.str ("44")) } : Updates)).current_checkin.smoking_today.isSome) ∧
    collectedCount ({ profile := { age := some 30 } } : ConversationState).profile ({ profile := { age := some 30 } } : ConversationState).current_checkin
        (issueMetricsGet ("general_wellness") []) ≤
      collectedCount (apply_updates ({ profile := { age := some 30 } } : ConversationState) ({ age := some (PyVal.str ("44")) } : Updates)).profile
        (apply_updates ({ profile := { age := some 30 } } : ConversationState) ({ age := some (PyVal.str ("44")) } : Updates)).current_checkin
        (issueMetricsGet ("general_wellness") [])) :=
  ⟨by decide, C10_no_uncollect ({ profile := { age := some 30 } } : ConversationState) ({ age := some (PyVal.str ("44")) } : Updates)
    (issueMetricsGet ("general_wellness") []) (by decide)⟩

/-- C1 (amended): for an already-classified agent with active priority list
L, a successful extraction turn is judged COMPLETE exactly when the count of
collected fields of L reaches max(8, floor(0.75·|L|)) — the floor, not the
ceiling — or the extraction service explicitly signaled COMPLETE. -/
theorem C1_completion_floor_threshold (choose : List String → String)
    (r : LLMResult) (agent : AgentState) (sess : ConversationState)
    (t : String) (L : List String) (h1 : agent.issue_type = some t)
    (h2 : agent.relevant_metrics = some L) (h3 : L ≠ []) :
    (run_conversation choose true (LLMOutcome.success r) agent sess).2.2.status =
        "COMPLETE" ↔
      (max 8 (3 * L.length / 4) ≤
        collectedCount
          (run_conversation choose true (LLMOutcome.success r) agent sess).2.1.profile
          (run_conversation choose true (LLMOutcome.success r) agent sess).2.1.current_checkin
          L ∨
       upperS (r.status.getD ("CONTINUE")) = "COMPLETE") := by
  have hhed : ∀ s2 : ConversationState, has_enough_data agent s2 = true ↔
      max 8 (3 * L.length / 4) ≤ collectedCount s2.profile s2.current_checkin L := by
    intro s2
    unfold has_enough_data threshold
    rw [h2]
    have hLe : L.isEmpty = false := by
      cases L
      · exact absurd rfl h3
      · rfl
    simp [hLe]
  unfold run_conversation
  simp only [Bool.not_true, Bool.false_eq_true, if_false]
  rcases hri : r.issue_type with _ | rit <;>
    simp [h1, hri, -sup_le_iff, -le_sup_iff]
  · split_ifs with hc
    · constructor
      · intro _
        rcases hc with hcl | hcr
        · exact Or.inl ((hhed _).mp hcl)
        · exact Or.inr hcr
      · intro _
        rfl
    · constructor
      · intro habs
        simp at habs
      · intro hrhs
        exfalso
        apply hc
        rcases hrhs with hl | hr
        · exact Or.inl ((hhed _).mpr hl)
        · exact Or.inr hr
  · split_ifs with hc
    · constructor
      · intro _
        rcases hc with hcl | hcr
        · exact Or.inl ((hhed _).mp hcl)
        · exact Or.inr hcr
      · intro _
        rfl
    · constructor
      · intro habs
        simp at habs
      · intro hrhs
        exfalso
        apply hc
        rcases hrhs with hl | hr
        · exact Or.inl ((hhed _).mpr hl)
        · exact Or.inr hr

/-- Witness for C1 (amended) on a classified agent and a COMPLETE-signaling
service response. -/
theorem C1_completion_floor_threshold_witness :
    ((run_conversation (fun _ => "") true
        (LLMOutcome.success ({ status := some ("complete") }))
        ({ issue_type := some ("emotional"),
           relevant_metrics := some (issueMetricsGet ("emotional") []) }) ({})).2.2.status =
        "COMPLETE" ↔
      (max 8 (3 * (issueMetricsGet ("emotional") []).length / 4) ≤
        collectedCount
          (run_conversation (fun _ => "") true
            (LLMOutcome.success ({ status := some ("complete") }))
            ({ issue_type := some ("emotional"),
               relevant_metrics := some (issueMetricsGet ("emotional") []) }) ({})).2.1.profile
          (run_conversation (fun _ => "") true
            (LLMOutcome.success ({ status := some ("complete") }))
            ({ issue_type := some ("emotional"),
               relevant_metrics := some (issueMetricsGet ("emotional") []) }) ({})).2.1.current_checkin
          (issueMetricsGet ("emotional") []) ∨
       upperS (({ status := some ("complete") } : LLMResult).status.getD ("CONTINUE")) =
         "COMPLETE")) :=
  C1_completion_floor_threshold (fun _ => "") ({ status := some ("complete") })
    ({ issue_type := some ("emotional"),
       relevant_metrics := some (issueMetricsGet ("emotional") []) }) ({})
    ("emotional") (issueMetricsGet ("emotional") []) rfl rfl (by decide)

end Nirava
